import Mathlib

/-!
Shallow embedding of `generate_epg.py` (a JSON-EPG to XMLTV converter).

The script's pure core is:
  * `unix_to_xmltv` (lines 20-28): Unix timestamp -> "YYYYMMDDHHMMSS +0000",
    returning `None` on any parse / range failure;
  * `create_xmltv` (lines 30-115): JSON data -> XML element tree, with
    per-record validation, warnings, and a top-level structural check;
  * `main` / `save_xmltv_file` (lines 117-163): writes the tree or exits 1.

JSON values are modelled by `JValue`; JSON numbers are modelled at integer
granularity (the timestamps of interest are integer seconds; the full IEEE-754
float grammar of CPython is outside the embedding).  Python objects (dicts) are
association lists with unique keys, as produced by `json.loads`.
-/

namespace EPG

/-- A parsed JSON value, as handed to `create_xmltv` by `response.json()`.
Numbers are modelled at integer granularity. -/
inductive JValue where
  | null
  | bool (b : Bool)
  | num (n : Int)
  | str (s : String)
  | arr (elems : List JValue)
  | obj (fields : List (String × JValue))

/-- Python dict lookup `d[k]` / `k in d` on an association list (keys unique,
first match). -/
def dictFind : List (String × JValue) → String → Option JValue
  | [], _ => none
  | (k, v) :: fs, key => if k == key then some v else dictFind fs key

/-- Python `d.get(k, default)`. -/
def dictGetD (fs : List (String × JValue)) (key : String) (d : JValue) : JValue :=
  (dictFind fs key).getD d

/-- Whether a value is Python `None`. -/
def isNull : JValue → Bool
  | .null => true
  | _ => false

/-- Python truthiness of a JSON-shaped value (`if x:`). -/
def pyTruthy : JValue → Bool
  | .null => false
  | .bool b => b
  | .num n => n != 0
  | .str s => s != ""
  | .arr xs => !xs.isEmpty
  | .obj fs => !fs.isEmpty

mutual

/-- Python `repr` on JSON-shaped values (used by `str` on lists/dicts).
String escaping is modelled for the common characters (backslash, quote,
newline, tab, carriage return); CPython additionally hex-escapes other
non-printable characters, which does not arise for the feed's data. -/
def pyRepr : JValue → String
  | .null => "None"
  | .bool b => if b then "True" else "False"
  | .num n => toString n
  | .str s => reprString s
  | .arr xs => "[" ++ String.intercalate ", " (pyReprList xs) ++ "]"
  | .obj fs => "\x7b" ++ String.intercalate ", " (pyReprFields fs) ++ "\x7d"

def pyReprList : List JValue → List String
  | [] => []
  | v :: vs => pyRepr v :: pyReprList vs

def pyReprFields : List (String × JValue) → List String
  | [] => []
  | (k, v) :: fs => (reprString k ++ ": " ++ pyRepr v) :: pyReprFields fs

/-- CPython `repr` of a string: single quotes, unless the string holds a
single quote and no double quote. -/
def reprString (s : String) : String :=
  let q : Char :=
    if (s.data.any fun c => c == '\'') && !(s.data.any fun c => c == '"') then '"' else '\''
  let esc := s.toList.map fun c =>
    if c = '\\' then "\\\\"
    else if c = q then "\\" ++ q.toString
    else if c = '\n' then "\\n"
    else if c = '\t' then "\\t"
    else if c = '\r' then "\\r"
    else c.toString
  q.toString ++ String.join esc ++ q.toString

end

/-- Python `str()` on JSON-shaped values (`str(channel["_id"])`, `str(title)`). -/
def pyStr : JValue → String
  | .null => "None"
  | .bool b => if b then "True" else "False"
  | .num n => toString n
  | .str s => s
  | .arr xs => pyRepr (.arr xs)
  | .obj fs => pyRepr (.obj fs)

/-! ### The timestamp converter (`unix_to_xmltv`, lines 20-28) -/

/-- Value of a decimal digit list (most significant first). -/
def digitsVal : List Char → Nat
  | [] => 0
  | c :: cs => (c.toNat - '0'.toNat) * 10 ^ cs.length + digitsVal cs

/-- Parse a stripped numeric string the way `int(float(s))` evaluates it:
optional sign, integer digits, optional fractional part; the fraction is
dropped (truncation toward zero).  The full CPython float grammar
(exponents, `inf`, `nan`, underscores) is outside the integer-granularity
embedding. -/
def parseNumCore (cs : List Char) : Option Int :=
  let (sign, rest) :=
    match cs with
    | '-' :: r => ((-1 : Int), r)
    | '+' :: r => ((1 : Int), r)
    | r => ((1 : Int), r)
  let intPart := rest.takeWhile Char.isDigit
  let rest2 := rest.dropWhile Char.isDigit
  match rest2 with
  | [] => if intPart.isEmpty then none else some (sign * digitsVal intPart)
  | '.' :: r3 =>
    let fracPart := r3.takeWhile Char.isDigit
    let r4 := r3.dropWhile Char.isDigit
    if r4.isEmpty && !(intPart.isEmpty && fracPart.isEmpty) then
      some (sign * digitsVal intPart)
    else none
  | _ => none

/-- Python `str.strip()` on a character list (leading and trailing
whitespace removed). -/
def trimChars (cs : List Char) : List Char :=
  ((cs.dropWhile Char.isWhitespace).reverse.dropWhile Char.isWhitespace).reverse

/-- Models `int(float(timestamp))`: `none` is a raised
`ValueError`/`TypeError` (caught by the converter). -/
def pyFloatTrunc : JValue → Option Int
  | .num n => some n
  | .bool b => some (if b then 1 else 0)
  | .str s => parseNumCore (trimChars s.data)
  | _ => none

/-- Earliest second representable by `datetime` (0001-01-01 00:00:00 UTC). -/
def minTimestamp : Int := -62135596800

/-- Latest second representable by `datetime` (9999-12-31 23:59:59 UTC). -/
def maxTimestamp : Int := 253402300799

/-- Civil date from a day count, where day number 306 is 0001-01-01
(i.e. the count is days since 0000-03-01 of the proleptic Gregorian
calendar).  Returns `(year, month, day)`. -/
def civilFromDay (g : Nat) : Nat × Nat × Nat :=
  let era := g / 146097
  let doe := g % 146097
  let yoe := (doe - doe / 1460 + doe / 36524 - doe / 146096) / 365
  let y := yoe + era * 400
  let doy := doe - (365 * yoe + yoe / 4 - yoe / 100)
  let mp := (5 * doy + 2) / 153
  let d := doy - (153 * mp + 2) / 5 + 1
  let m := if mp < 10 then mp + 3 else mp - 9
  (if m ≤ 2 then y + 1 else y, m, d)

/-- Zero-padded two-digit field (C `strftime` `%m %d %H %M %S`). -/
def pad2 (n : Nat) : String :=
  if n < 10 then "0" ++ toString n else toString n

/-- Models `datetime.utcfromtimestamp(t).strftime('%Y%m%d%H%M%S')` for an in-range
`t`.  `%Y` is not zero-padded by glibc, which coincides with the plain
decimal form for every year from 1000 on. -/
def formatUTC (t : Int) : String :=
  let u := (t - minTimestamp).toNat
  let day := u / 86400
  let secs := u % 86400
  let ymd := civilFromDay (day + 306)
  toString ymd.1 ++ pad2 ymd.2.1 ++ pad2 ymd.2.2 ++
    pad2 (secs / 3600) ++ pad2 (secs % 3600 / 60) ++ pad2 (secs % 60)

/-- Models `unix_to_xmltv` (lines 20-28): convert to XMLTV UTC format, `none` on
any caught conversion error (unparsable input, or a timestamp outside the
`datetime` range, where `utcfromtimestamp` raises). -/
def unix_to_xmltv (timestamp : JValue) : Option String :=
  match pyFloatTrunc timestamp with
  | none => none
  | some t =>
    if minTimestamp ≤ t ∧ t ≤ maxTimestamp then
      some (formatUTC t ++ " +0000")
    else none

/-! ### The XMLTV builder (`create_xmltv`, lines 30-115) -/

/-- A warning emitted through `logging.warning` while building (one
constructor per warning site, carrying the data interpolated into the
message). -/
inductive Warning where
  | invalidChannel (channel : JValue)
  | invalidProgramList (channelId : String)
  | invalidProgram (channelId : String) (p : JValue)
  | missingFields (channelId : String) (p : JValue)
  | badTimestamp (channelId : String) (p : JValue)
  | startNotBeforeEnd (channelId : String) (p : JValue)
  | zeroChannels
  | zeroPrograms

/-- A child element of the root `tv` element, in document order.  The root
also carries the two fixed generator-info attributes (lines 38-39), which
no record can influence.  `display-name` text is the raw `name` value (the
source assigns it without `str()`); `title`/`desc` texts are `str()`-ed. -/
inductive TvChild where
  | channel (id : String) (displayName : JValue)
  | programme (start stop chan title : String) (desc : Option String)

/-- Numeric view of a value for Python comparison (`bool` is an `int`
subtype). -/
def pyNumVal : JValue → Option Int
  | .num n => some n
  | .bool b => some (if b then 1 else 0)
  | _ => none

/-- Lexicographic `<=` on character lists by code point (Python string
comparison). -/
def charListLe : List Char → List Char → Bool
  | [], _ => true
  | _ :: _, [] => false
  | a :: as, b :: bs =>
    if a.toNat < b.toNat then true
    else if b.toNat < a.toNat then false
    else charListLe as bs

/-- Python `start_ts >= end_ts` on raw JSON values (line 84): numbers
compare numerically, strings lexicographically by code point; comparing a
number with a string (or any other mixed pair) raises `TypeError`,
modelled as `none`.  (Sequence-sequence comparison cannot reach this call
site: both operands already passed `unix_to_xmltv`.) -/
def pyGe (a b : JValue) : Option Bool :=
  match a, b with
  | .str x, .str y => some (charListLe y.data x.data)
  | _, _ =>
    match pyNumVal a, pyNumVal b with
    | some x, some y => some (decide (y ≤ x))
    | _, _ => none

/-- Body of the program loop (lines 62-107) for one entry of a channel's
`program` list.  `Except.error ()` is the uncaught `TypeError` of the raw
`start_ts >= end_ts` comparison; `.inl` is a skip with its warning;
`.inr` is the emitted `programme` element. -/
def processProgram (cid : String) (p : JValue) : Except Unit (Warning ⊕ TvChild) :=
  match p with
  | .obj pf =>
    let start_ts := dictGetD pf "starts_at" .null
    let end_ts := dictGetD pf "ends_at" .null
    let title := dictGetD pf "program_title" .null
    if isNull start_ts || isNull end_ts || isNull title then
      .ok (.inl (.missingFields cid (.obj pf)))
    else
      match unix_to_xmltv start_ts, unix_to_xmltv end_ts with
      | some ss, some es =>
        (match pyGe start_ts end_ts with
         | none => .error ()
         | some true => .ok (.inl (.startNotBeforeEnd cid (.obj pf)))
         | some false =>
           let descv := dictGetD pf "program_description" .null
           .ok (.inr (.programme ss es cid (pyStr title)
             (if pyTruthy descv && !(trimChars (pyStr descv).data).isEmpty
              then some (pyStr descv) else none))))
      | _, _ => .ok (.inl (.badTimestamp cid (.obj pf)))
  | _ => .ok (.inl (.invalidProgram cid p))

/-- The program loop over a channel's `program` list: emitted `programme`
children in order, the programme count, and the warnings. -/
def processPrograms (cid : String) : List JValue → Except Unit (List TvChild × Nat × List Warning)
  | [] => .ok ([], 0, [])
  | p :: ps =>
    match processProgram cid p with
    | .error e => .error e
    | .ok r =>
      match processPrograms cid ps with
      | .error e => .error e
      | .ok (cs, n, ws) =>
        match r with
        | .inl w => .ok (cs, n, w :: ws)
        | .inr c => .ok (c :: cs, n + 1, ws)

/-- Body of the channel loop (lines 44-107) for one entry of `channels`:
the emitted children (the `channel` element followed by its `programme`
elements), the channel-count and programme-count increments, and the
warnings. -/
def processChannel (c : JValue) : Except Unit (List TvChild × Nat × Nat × List Warning) :=
  match c with
  | .obj fs =>
    if (dictFind fs "_id").isSome && (dictFind fs "name").isSome then
      let cid := pyStr (dictGetD fs "_id" .null)
      let cname := dictGetD fs "name" (.str "Unknown Channel")
      match dictGetD fs "program" (.arr []) with
      | .arr ps =>
        match processPrograms cid ps with
        | .error e => .error e
        | .ok (cs, pn, ws) => .ok (.channel cid cname :: cs, 1, pn, ws)
      | _ => .ok ([.channel cid cname], 1, 0, [.invalidProgramList cid])
    else
      .ok ([], 0, 0, [.invalidChannel (.obj fs)])
  | _ => .ok ([], 0, 0, [.invalidChannel c])

/-- The channel loop over `data["channels"]`: concatenated children,
total channel count, total programme count, and warnings. -/
def processChannels : List JValue → Except Unit (List TvChild × Nat × Nat × List Warning)
  | [] => .ok ([], 0, 0, [])
  | c :: cs =>
    match processChannel c with
    | .error e => .error e
    | .ok (t1, cn1, pn1, ws1) =>
      match processChannels cs with
      | .error e => .error e
      | .ok (t2, cn2, pn2, ws2) => .ok (t1 ++ t2, cn1 + cn2, pn1 + pn2, ws1 ++ ws2)

/-- Result of `create_xmltv`: the returned `ElementTree` (children of the
root in document order, plus the logged warnings), the `None` return of
the top-level structural check (line 34), or an uncaught exception
escaping the function. -/
inductive BuildResult where
  | raised
  | invalid
  | tree (children : List TvChild) (warnings : List Warning)

/-- Models `create_xmltv` (lines 30-115). -/
def create_xmltv (data : JValue) : BuildResult :=
  match data with
  | .obj fs =>
    match dictFind fs "channels" with
    | some (.arr chans) =>
      match processChannels chans with
      | .error _ => .raised
      | .ok (t, cn, pn, ws) =>
        .tree t (ws ++ (if cn = 0 then [Warning.zeroChannels] else [])
                    ++ (if pn = 0 then [Warning.zeroPrograms] else []))
    | _ => .invalid
  | _ => .invalid

/-! ### `save_xmltv_file` and `main` (lines 117-163) -/

/-- Whether an element's `.text` value survives serialization: the
serializer writes `.text` only when truthy, and `_escape_cdata` raises
`TypeError` (caught at line 127, `sys.exit(1)`) on a truthy non-string. -/
def textSerializes : JValue → Bool
  | .str _ => true
  | v => !pyTruthy v

/-- Whether every text node of the tree serializes (`programme` texts are
always `str()`-ed; only a channel's raw `display-name` text can fail). -/
def childrenSerialize (t : List TvChild) : Bool :=
  t.all fun
    | .channel _ nm => textSerializes nm
    | .programme _ _ _ _ _ => true

/-- Observable outcome of `main` (lines 157-163) after a successful fetch
and JSON decode handed `data` to the builder, assuming the operating
system accepts the file write: `crashed` is an uncaught exception (no
file written), `exitedOne` is the `sys.exit(1)` with no write attempted,
`writeFailed` is `save_xmltv_file` dying in `sys.exit(1)`, and
`wroteFile` is the successful write of the serialized tree. -/
inductive RunOutcome where
  | crashed
  | exitedOne
  | writeFailed
  | wroteFile (children : List TvChild) (warnings : List Warning)

/-- The tail of `main` (lines 157-163): build, then write or exit. -/
def runMain (data : JValue) : RunOutcome :=
  match create_xmltv data with
  | .raised => .crashed
  | .invalid => .exitedOne
  | .tree t ws => if childrenSerialize t then .wroteFile t ws else .writeFailed

/-- Process exit status of each outcome (an uncaught exception also ends
the interpreter with status 1). -/
def exitCode : RunOutcome → Nat
  | .wroteFile _ _ => 0
  | _ => 1

/-! ### Views used by the statements -/

/-- The `id` attributes of the emitted `channel` elements, in order. -/
def channelIds (t : List TvChild) : List String :=
  t.filterMap fun
    | .channel i _ => some i
    | .programme _ _ _ _ _ => none

/-- The `channel` attributes of the emitted `programme` elements, in order. -/
def programmeChans (t : List TvChild) : List String :=
  t.filterMap fun
    | .channel _ _ => none
    | .programme _ _ c _ _ => some c

/-- The root's children when the build returned a tree. -/
def treeChildren : BuildResult → Option (List TvChild)
  | .tree t _ => some t
  | _ => none

/-- Input builder: a top-level object whose `channels` field is a list. -/
def mkData (chs : List JValue) : JValue :=
  .obj [("channels", .arr chs)]

/-- Input builder: a channel object with the three expected fields. -/
def mkChannel (iv nv : JValue) (ps : List JValue) : JValue :=
  .obj [("_id", iv), ("name", nv), ("program", .arr ps)]

/-- The top-level structural check of line 32: the data is a dict with a
`channels` key holding a list. -/
def hasChannelsList : JValue → Bool
  | .obj fs =>
    match dictFind fs "channels" with
    | some (.arr _) => true
    | _ => false
  | _ => false

/-- Program-loop result with the warnings forgotten (children and count). -/
def dropWarnings3 (r : Except Unit (List TvChild × Nat × List Warning)) :
    Except Unit (List TvChild × Nat) :=
  r.map fun x => (x.1, x.2.1)

/-- Channel-loop result with the warnings forgotten. -/
def dropWarnings4 (r : Except Unit (List TvChild × Nat × Nat × List Warning)) :
    Except Unit (List TvChild × Nat × Nat) :=
  r.map fun x => (x.1, x.2.1, x.2.2.1)

/-! ### Concrete inputs used in the statements -/

/-- The program record of the specification's end-to-end example. -/
def specExampleProgram : JValue :=
  .obj [("starts_at", .num 1700000000), ("ends_at", .num 1700003600),
        ("program_title", .str "Show A"), ("program_description", .str "desc")]

/-- The input of the specification's end-to-end example:
`{"channels":[{"_id":"42","name":"Demo","program":[...]}]}`. -/
def specExampleData : JValue :=
  mkData [.obj [("_id", .str "42"), ("name", .str "Demo"),
                ("program", .arr [specExampleProgram])]]

/-- The children the builder emits for `specExampleData`. -/
def specExampleChildren : List TvChild :=
  [.channel "42" (.str "Demo"),
   .programme "20231114221320 +0000" "20231114231320 +0000" "42" "Show A" (some "desc")]

/-- A program whose `starts_at` is a number and whose `ends_at` is a
numeric string — both convert, but the raw comparison mixes types. -/
def mixedTypesProgram : JValue :=
  .obj [("starts_at", .num 5), ("ends_at", .str "10"), ("program_title", .str "T")]

/-- Input holding `mixedTypesProgram` inside one well-formed channel. -/
def mixedTypesData : JValue :=
  mkData [.obj [("_id", .str "1"), ("name", .str "A"),
                ("program", .arr [mixedTypesProgram])]]

/-- Input with two channels sharing the `_id` value `1`, the first of
which carries one valid program. -/
def dupIdData : JValue :=
  mkData [mkChannel (.num 1) (.str "A") [specExampleProgram],
          mkChannel (.num 1) (.str "B") []]

/-- The children the builder emits for `dupIdData`. -/
def dupIdChildren : List TvChild :=
  [.channel "1" (.str "A"),
   .programme "20231114221320 +0000" "20231114231320 +0000" "1" "Show A" (some "desc"),
   .channel "1" (.str "B")]

/-- A program with equal raw start and end timestamps. -/
def invertedProgram : JValue :=
  .obj [("starts_at", .num 5), ("ends_at", .num 5), ("program_title", .str "T")]

/-! ### Theorems -/

/-- C10: the malformed-channel check tests only key presence.  With `_id`
and `name` present but bound to arbitrary values (null included), the
channel element is still emitted; its id is the Python string form of the
`_id` value (so a null `_id` yields the id "None"), and the raw `name`
value is used unconverted as the display-name text. -/
theorem c10_presence_only_check :
    (∀ iv nv : JValue, processChannel (.obj [("_id", iv), ("name", nv)]) =
      .ok ([.channel (pyStr iv) nv], 1, 0, [])) ∧
    pyStr JValue.null = "None" ∧
    create_xmltv (mkData [.obj [("_id", JValue.null), ("name", JValue.null)]]) =
      .tree [.channel "None" JValue.null] [.zeroPrograms] :=
  ⟨fun _ _ => rfl, rfl, rfl⟩

/-- C3 (code bug): on a program whose `starts_at` is a number and whose
`ends_at` is a numeric string, both timestamps convert, yet the raw
`start_ts >= end_ts` comparison of line 84 raises an uncaught `TypeError`:
the builder aborts the whole run instead of dropping the record with a
warning. -/
theorem c3_mixed_timestamp_crash :
    unix_to_xmltv (JValue.num 5) = some "19700101000005 +0000" ∧
    unix_to_xmltv (JValue.str "10") = some "19700101000010 +0000" ∧
    pyGe (JValue.num 5) (JValue.str "10") = none ∧
    create_xmltv mixedTypesData = .raised ∧
    runMain mixedTypesData = .crashed ∧
    exitCode (runMain mixedTypesData) = 1 :=
  ⟨rfl, rfl, rfl, rfl, rfl, rfl⟩

/-- C8: on input with an empty `channels` list the builder succeeds with a
root holding zero children, both the zero-channels and the zero-programs
warnings are logged, the file is still written, and the process exits 0. -/
theorem c8_empty_channels_ok :
    create_xmltv (mkData []) = .tree [] [.zeroChannels, .zeroPrograms] ∧
    runMain (mkData []) = .wroteFile [] [.zeroChannels, .zeroPrograms] ∧
    exitCode (runMain (mkData [])) = 0 :=
  ⟨rfl, rfl, rfl⟩

/-- C7: whenever the top-level value is not an object with a `channels`
field holding a sequence, the builder returns its failure signal, `main`
exits with status 1, and no output file is written (the save routine is
never reached). -/
theorem c7_invalid_top_level (data : JValue) (h : hasChannelsList data = false) :
    create_xmltv data = .invalid ∧ runMain data = .exitedOne ∧
    exitCode (runMain data) = 1 := by
  have hinv : create_xmltv data = .invalid := by
    cases data with
    | obj fs =>
      unfold hasChannelsList at h
      unfold create_xmltv
      cases hf : dictFind fs "channels" with
      | none => simp [hf]
      | some v => cases v <;> simp_all [hf]
    | _ => rfl
  exact ⟨hinv, by simp [runMain, hinv], by simp [runMain, hinv, exitCode]⟩

/-- Witness for C7 at the concrete input `{}` (an object with no
`channels` key). -/
theorem c7_witness :
    create_xmltv (JValue.obj []) = .invalid ∧
    runMain (JValue.obj []) = .exitedOne ∧
    exitCode (runMain (JValue.obj [])) = 1 :=
  c7_invalid_top_level (JValue.obj []) rfl

/-- C5: whenever `int(float(.))` fails to produce an integer, or produces
one outside the range `datetime` can represent, the converter returns the
`None` sentinel (it catches the exception) rather than propagating a
fault. -/
theorem c5_converter_failure_sentinel (v : JValue)
    (h : pyFloatTrunc v = none ∨
         ∃ t, pyFloatTrunc v = some t ∧ (t < minTimestamp ∨ maxTimestamp < t)) :
    unix_to_xmltv v = none := by
  unfold unix_to_xmltv
  cases hp : pyFloatTrunc v with
  | none => rfl
  | some t =>
    rcases h with h | ⟨t', ht', hr⟩
    · rw [hp] at h; cases h
    · rw [hp] at ht'
      injection ht' with he
      subst he
      have hc : ¬(minTimestamp ≤ t ∧ t ≤ maxTimestamp) := by
        simp only [minTimestamp, maxTimestamp] at hr ⊢
        omega
      show (if minTimestamp ≤ t ∧ t ≤ maxTimestamp
            then some (formatUTC t ++ " +0000") else none) = none
      rw [if_neg hc]

/-- Witness for C5 at the concrete non-numeric input `"not a number"`. -/
theorem c5_witness : unix_to_xmltv (JValue.str "not a number") = none :=
  c5_converter_failure_sentinel _ (Or.inl rfl)

/-- C9 (counterexample input): a channel dict carrying `_id` but no `name`
key is skipped with a warning — no channel element is emitted, so the
display-name placeholder never appears. -/
theorem c9_counterexample :
    create_xmltv (mkData [JValue.obj [("_id", JValue.num 7)]]) =
      .tree [] [.invalidChannel (JValue.obj [("_id", JValue.num 7)]),
                .zeroChannels, .zeroPrograms] :=
  rfl

/-- C9 (amended): every channel object whose `name` key is absent is
dropped by the line-45 check with a warning; the `"Unknown Channel"`
placeholder default of line 50 is unreachable. -/
theorem c9_missing_name_skipped (fs : List (String × JValue))
    (h : dictFind fs "name" = none) :
    processChannel (.obj fs) = .ok ([], 0, 0, [.invalidChannel (.obj fs)]) := by
  simp [processChannel, h]

/-- Witness for C9 at the concrete channel `{"_id": 7}`. -/
theorem c9_witness :
    processChannel (JValue.obj [("_id", JValue.num 7)]) =
      .ok ([], 0, 0, [.invalidChannel (JValue.obj [("_id", JValue.num 7)])]) :=
  c9_missing_name_skipped [("_id", JValue.num 7)] rfl

/-- C1 (counterexample): on the specification's own end-to-end example the
emitted channel id is `"42"`, the bare string form of `_id`, not
`"LN_42"`. -/
theorem c1_counterexample :
    create_xmltv specExampleData = .tree specExampleChildren [] ∧
    channelIds specExampleChildren = ["42"] ∧
    ("42" : String) ≠ "LN_42" :=
  ⟨rfl, rfl, by decide⟩

/-- C1 (amended): for every channel object carrying both `_id` and `name`,
when the builder does not abort, the emitted channel element's id is
exactly the Python string form of `_id`, with no prefix prepended. -/
theorem c1_id_is_plain_str (fs : List (String × JValue)) (iv nv : JValue)
    (h1 : dictFind fs "_id" = some iv) (h2 : dictFind fs "name" = some nv)
    (r : List TvChild × Nat × Nat × List Warning)
    (hr : processChannel (.obj fs) = .ok r) :
    ∃ rest, r.1 = TvChild.channel (pyStr iv) nv :: rest := by
  simp only [processChannel, dictGetD, h1, h2, Option.isSome_some, Bool.and_self,
    if_true, Option.getD_some] at hr
  split at hr
  · split at hr
    · cases hr
    · cases hr
      exact ⟨_, rfl⟩
  · cases hr
    exact ⟨[], rfl⟩

/-- Witness for C1 at the concrete channel `{"_id": "42", "name": "Demo"}`. -/
theorem c1_witness :
    ∃ rest, ([TvChild.channel "42" (JValue.str "Demo")], 1, 0,
      ([] : List Warning)).1 = TvChild.channel (pyStr (JValue.str "42")) (JValue.str "Demo") :: rest :=
  c1_id_is_plain_str [("_id", JValue.str "42"), ("name", JValue.str "Demo")]
    (JValue.str "42") (JValue.str "Demo") rfl rfl _ rfl

/-- C4 (counterexample): `10^18` parses as a finite number, yet the
converter returns `None` (the timestamp is outside the representable
`datetime` range), not a formatted string. -/
theorem c4_counterexample :
    pyFloatTrunc (JValue.num 1000000000000000000) = some 1000000000000000000 ∧
    unix_to_xmltv (JValue.num 1000000000000000000) = none :=
  ⟨rfl, rfl⟩

/-- C4 (amended): for every input parsing to an integer-second value in
the `datetime`-representable range, the converter returns the UTC
calendar formatting of the truncated value suffixed with the literal
`" +0000"`; in particular 1700000000 yields "20231114221320 +0000". -/
theorem c4_in_range_formats :
    (∀ (v : JValue) (t : Int), pyFloatTrunc v = some t →
        minTimestamp ≤ t → t ≤ maxTimestamp →
        unix_to_xmltv v = some (formatUTC t ++ " +0000")) ∧
    unix_to_xmltv (JValue.num 1700000000) = some "20231114221320 +0000" ∧
    unix_to_xmltv (JValue.str "1700000000") = some "20231114221320 +0000" ∧
    unix_to_xmltv (JValue.num 0) = some "19700101000000 +0000" := by
  refine ⟨?_, rfl, rfl, rfl⟩
  intro v t hp ha hb
  unfold unix_to_xmltv
  rw [hp]
  show (if minTimestamp ≤ t ∧ t ≤ maxTimestamp
        then some (formatUTC t ++ " +0000") else none) = some (formatUTC t ++ " +0000")
  rw [if_pos ⟨ha, hb⟩]

/-- Witness for C4 at the concrete timestamp 1700003600. -/
theorem c4_witness :
    unix_to_xmltv (JValue.num 1700003600) = some "20231114231320 +0000" := by
  have h := c4_in_range_formats.1 (JValue.num 1700003600) 1700003600 rfl
    (by decide) (by decide)
  rw [h]
  rfl

/-- Every `programme` element the program loop emits carries the owning
channel's id in its `channel` attribute. -/
theorem processProgram_inr_chan (cid : String) (p : JValue) (c : TvChild)
    (h : processProgram cid p = .ok (.inr c)) :
    ∃ ss es ti d, c = TvChild.programme ss es cid ti d := by
  unfold processProgram at h
  cases p <;> simp only [Except.ok.injEq, reduceCtorEq] at h
  case obj pf =>
    split at h
    · cases h
    · split at h
      · split at h
        · cases h
        · cases h
        · injection h with h'
          injection h' with h''
          exact ⟨_, _, _, _, h''.symm⟩
      · cases h

/-- All programme children produced by one channel's program loop
reference that channel's id. -/
theorem processPrograms_chanattr (cid : String) (ps : List JValue)
    (cs : List TvChild) (n : Nat) (ws : List Warning)
    (h : processPrograms cid ps = .ok (cs, n, ws)) :
    ∀ x ∈ programmeChans cs, x = cid := by
  induction ps generalizing cs n ws with
  | nil =>
    injection h with h'
    injection h' with h1 h2
    subst h1
    simp [programmeChans]
  | cons p ps ih =>
    unfold processPrograms at h
    cases hp : processProgram cid p with
    | error e => rw [hp] at h; cases h
    | ok r =>
      rw [hp] at h
      cases hq : processPrograms cid ps with
      | error e => rw [hq] at h; cases h
      | ok v =>
        obtain ⟨cs', n', ws'⟩ := v
        rw [hq] at h
        cases r with
        | inl w =>
          simp only [Except.ok.injEq, Prod.mk.injEq] at h
          obtain ⟨h1, -, -⟩ := h
          subst h1
          exact ih cs' n' ws' hq
        | inr c =>
          simp only [Except.ok.injEq, Prod.mk.injEq] at h
          obtain ⟨h1, -, -⟩ := h
          subst h1
          obtain ⟨ss, es, ti, d, hc⟩ := processProgram_inr_chan cid p c hp
          subst hc
          intro x hx
          simp only [programmeChans, List.filterMap_cons] at hx
          simp only [List.mem_cons] at hx
          rcases hx with hx | hx
          · exact hx
          · exact ih cs' n' ws' hq x hx

/-- Within the children emitted for a single channel entry, every
programme reference resolves to an emitted channel id. -/
theorem processChannel_refint (c : JValue) (t : List TvChild) (cn pn : Nat)
    (ws : List Warning) (h : processChannel c = .ok (t, cn, pn, ws)) :
    ∀ x ∈ programmeChans t, x ∈ channelIds t := by
  cases c with
  | obj fs =>
    simp only [processChannel] at h
    split at h
    · split at h
      · split at h
        · cases h
        · rename_i cs0 pn0 ws0 hq
          simp only [Except.ok.injEq, Prod.mk.injEq] at h
          obtain ⟨h1, -, -, -⟩ := h
          subst h1
          intro x hx
          simp only [programmeChans, List.filterMap_cons] at hx
          have hx' := processPrograms_chanattr _ _ _ _ _ hq x hx
          subst hx'
          simp [channelIds, List.filterMap_cons]
      · simp only [Except.ok.injEq, Prod.mk.injEq] at h
        obtain ⟨h1, -, -, -⟩ := h
        subst h1
        simp [programmeChans]
    · simp only [Except.ok.injEq, Prod.mk.injEq] at h
      obtain ⟨h1, -, -, -⟩ := h
      subst h1
      simp [programmeChans]
  | null =>
    simp only [processChannel, Except.ok.injEq, Prod.mk.injEq] at h
    obtain ⟨h1, -, -, -⟩ := h
    subst h1
    simp [programmeChans]
  | bool b =>
    simp only [processChannel, Except.ok.injEq, Prod.mk.injEq] at h
    obtain ⟨h1, -, -, -⟩ := h
    subst h1
    simp [programmeChans]
  | num n =>
    simp only [processChannel, Except.ok.injEq, Prod.mk.injEq] at h
    obtain ⟨h1, -, -, -⟩ := h
    subst h1
    simp [programmeChans]
  | str s =>
    simp only [processChannel, Except.ok.injEq, Prod.mk.injEq] at h
    obtain ⟨h1, -, -, -⟩ := h
    subst h1
    simp [programmeChans]
  | arr xs =>
    simp only [processChannel, Except.ok.injEq, Prod.mk.injEq] at h
    obtain ⟨h1, -, -, -⟩ := h
    subst h1
    simp [programmeChans]

/-- Referential integrity holds across the whole channel loop. -/
theorem processChannels_refint (chans : List JValue) (t : List TvChild)
    (cn pn : Nat) (ws : List Warning)
    (h : processChannels chans = .ok (t, cn, pn, ws)) :
    ∀ x ∈ programmeChans t, x ∈ channelIds t := by
  induction chans generalizing t cn pn ws with
  | nil =>
    simp only [processChannels, Except.ok.injEq, Prod.mk.injEq] at h
    obtain ⟨h1, -, -, -⟩ := h
    subst h1
    simp [programmeChans]
  | cons c cs ih =>
    unfold processChannels at h
    cases hp : processChannel c with
    | error e => rw [hp] at h; cases h
    | ok v1 =>
      rw [hp] at h
      cases hq : processChannels cs with
      | error e => rw [hq] at h; cases h
      | ok v2 =>
        obtain ⟨t1, cn1, pn1, ws1⟩ := v1
        obtain ⟨t2, cn2, pn2, ws2⟩ := v2
        rw [hq] at h
        simp only [Except.ok.injEq, Prod.mk.injEq] at h
        obtain ⟨h1, -, -, -⟩ := h
        subst h1
        intro x hx
        simp only [programmeChans, List.filterMap_append, List.mem_append] at hx
        simp only [channelIds, List.filterMap_append, List.mem_append]
        rcases hx with hx | hx
        · exact Or.inl (processChannel_refint c t1 cn1 pn1 ws1 hp x
            (by simpa [programmeChans] using hx))
        · exact Or.inr (ih t2 cn2 pn2 ws2 hq x (by simpa [programmeChans] using hx))

/-- C2 (amended): whenever the builder returns a tree, every emitted
programme's `channel` attribute equals the id of at least one emitted
channel element (its owning channel's); when two input channels share an
`_id`, the match is not unique. -/
theorem c2_referential_integrity (data : JValue) (t : List TvChild)
    (ws : List Warning) (h : create_xmltv data = .tree t ws) :
    ∀ x ∈ programmeChans t, x ∈ channelIds t := by
  cases data with
  | obj fs =>
    simp only [create_xmltv] at h
    split at h
    · split at h
      · cases h
      · rename_i chans hfq xx t0 cn pn ws0 hq
        injection h with h1 h2
        subst h1
        exact processChannels_refint chans t0 cn pn ws0 hq
    · cases h
  | null => cases h
  | bool b => cases h
  | num n => cases h
  | str s => cases h
  | arr xs => cases h
/-- C2 (counterexample): with two channels sharing `_id` 1, the emitted
programme's `channel` attribute "1" matches two channel elements, not
exactly one. -/
theorem c2_counterexample :
    create_xmltv dupIdData = .tree dupIdChildren [] ∧
    programmeChans dupIdChildren = ["1"] ∧
    (channelIds dupIdChildren).count "1" = 2 ∧
    ¬(channelIds dupIdChildren).count "1" = 1 :=
  ⟨rfl, rfl, rfl, by decide⟩

/-- Witness for C2 on the specification's end-to-end example data. -/
theorem c2_witness : "42" ∈ channelIds specExampleChildren :=
  c2_referential_integrity specExampleData specExampleChildren [] rfl "42" (by decide)


/-- One-step unfolding of the program loop on a cons cell. -/
theorem processPrograms_cons (cid : String) (p : JValue) (ps : List JValue) :
    processPrograms cid (p :: ps) =
      match processProgram cid p with
      | .error e => .error e
      | .ok r =>
        match processPrograms cid ps with
        | .error e => .error e
        | .ok (cs, n, ws) =>
          match r with
          | .inl w => .ok (cs, n, w :: ws)
          | .inr c => .ok (c :: cs, n + 1, ws) :=
  rfl

/-- One-step unfolding of the channel loop on a cons cell. -/
theorem processChannels_cons (c : JValue) (cs : List JValue) :
    processChannels (c :: cs) =
      match processChannel c with
      | .error e => .error e
      | .ok (t1, cn1, pn1, ws1) =>
        match processChannels cs with
        | .error e => .error e
        | .ok (t2, cn2, pn2, ws2) => .ok (t1 ++ t2, cn1 + cn2, pn1 + pn2, ws1 ++ ws2) :=
  rfl

/-- Skipping one program (a program whose processing yields a warning)
changes only the warning list of the program loop: the emitted programme
children and the programme count are those of the list without it. -/
theorem processPrograms_skip (cid : String) (p : JValue) (w : Warning)
    (hp : processProgram cid p = .ok (.inl w)) (ps₁ ps₂ : List JValue) :
    dropWarnings3 (processPrograms cid (ps₁ ++ p :: ps₂)) =
    dropWarnings3 (processPrograms cid (ps₁ ++ ps₂)) := by
  induction ps₁ with
  | nil =>
    simp only [List.nil_append]
    rw [processPrograms_cons, hp]
    cases hq : processPrograms cid ps₂ with
    | error e => rfl
    | ok v =>
      obtain ⟨cs, n, ws⟩ := v
      rfl
  | cons q qs ih =>
    simp only [List.cons_append]
    rw [processPrograms_cons, processPrograms_cons]
    cases hq : processProgram cid q with
    | error e => rfl
    | ok r =>
      cases h1 : processPrograms cid (qs ++ p :: ps₂) with
      | error e =>
        cases h2 : processPrograms cid (qs ++ ps₂) with
        | error e2 => cases e; cases e2; rfl
        | ok v2 => rw [h1, h2] at ih; simp [dropWarnings3, Except.map] at ih
      | ok v1 =>
        cases h2 : processPrograms cid (qs ++ ps₂) with
        | error e2 => rw [h1, h2] at ih; simp [dropWarnings3, Except.map] at ih
        | ok v2 =>
          obtain ⟨cs1, n1, ws1⟩ := v1
          obtain ⟨cs2, n2, ws2⟩ := v2
          rw [h1, h2] at ih
          simp only [dropWarnings3, Except.map, Except.ok.injEq, Prod.mk.injEq] at ih
          obtain ⟨hcs, hn⟩ := ih
          subst hcs
          subst hn
          cases r with
          | inl w2 => rfl
          | inr c => rfl

/-- Lifting `processPrograms_skip` to one channel entry: a skipped program
leaves the channel children and both counts unchanged. -/
theorem processChannel_skipProgram (iv nv : JValue) (p : JValue) (w : Warning)
    (hp : processProgram (pyStr iv) p = .ok (.inl w)) (ps₁ ps₂ : List JValue) :
    dropWarnings4 (processChannel (mkChannel iv nv (ps₁ ++ p :: ps₂))) =
    dropWarnings4 (processChannel (mkChannel iv nv (ps₁ ++ ps₂))) := by
  have hred : ∀ ps : List JValue, processChannel (mkChannel iv nv ps) =
      match processPrograms (pyStr iv) ps with
      | .error e => .error e
      | .ok (cs, pn, ws) => .ok (.channel (pyStr iv) nv :: cs, 1, pn, ws) :=
    fun ps => rfl
  rw [hred, hred]
  have h := processPrograms_skip (pyStr iv) p w hp ps₁ ps₂
  cases h1 : processPrograms (pyStr iv) (ps₁ ++ p :: ps₂) with
  | error e =>
    cases h2 : processPrograms (pyStr iv) (ps₁ ++ ps₂) with
    | error e2 => cases e; cases e2; rfl
    | ok v2 => rw [h1, h2] at h; simp [dropWarnings3, Except.map] at h
  | ok v1 =>
    cases h2 : processPrograms (pyStr iv) (ps₁ ++ ps₂) with
    | error e2 => rw [h1, h2] at h; simp [dropWarnings3, Except.map] at h
    | ok v2 =>
      obtain ⟨cs1, n1, ws1⟩ := v1
      obtain ⟨cs2, n2, ws2⟩ := v2
      rw [h1, h2] at h
      simp only [dropWarnings3, Except.map, Except.ok.injEq, Prod.mk.injEq] at h
      obtain ⟨hcs, hn⟩ := h
      subst hcs
      subst hn
      rfl

/-- Replacing one channel entry by another with the same
warnings-forgotten result leaves the whole channel loop's
warnings-forgotten result unchanged. -/
theorem processChannels_congr (c₁ c₂ : JValue)
    (h : dropWarnings4 (processChannel c₁) = dropWarnings4 (processChannel c₂))
    (pre post : List JValue) :
    dropWarnings4 (processChannels (pre ++ c₁ :: post)) =
    dropWarnings4 (processChannels (pre ++ c₂ :: post)) := by
  induction pre with
  | nil =>
    simp only [List.nil_append]
    rw [processChannels_cons, processChannels_cons]
    cases h1 : processChannel c₁ with
    | error e =>
      cases h2 : processChannel c₂ with
      | error e2 => cases e; cases e2; rfl
      | ok v2 => rw [h1, h2] at h; simp [dropWarnings4, Except.map] at h
    | ok v1 =>
      cases h2 : processChannel c₂ with
      | error e2 => rw [h1, h2] at h; simp [dropWarnings4, Except.map] at h
      | ok v2 =>
        obtain ⟨t1, cn1, pn1, ws1⟩ := v1
        obtain ⟨t2, cn2, pn2, ws2⟩ := v2
        rw [h1, h2] at h
        simp only [dropWarnings4, Except.map, Except.ok.injEq, Prod.mk.injEq] at h
        obtain ⟨ht, hcn, hpn⟩ := h
        subst ht
        subst hcn
        subst hpn
        cases hr : processChannels post with
        | error e => rfl
        | ok v =>
          obtain ⟨t3, cn3, pn3, ws3⟩ := v
          rfl
  | cons q qs ih =>
    simp only [List.cons_append]
    rw [processChannels_cons, processChannels_cons]
    cases hq : processChannel q with
    | error e => rfl
    | ok r =>
      obtain ⟨t0, cn0, pn0, ws0⟩ := r
      cases h1 : processChannels (qs ++ c₁ :: post) with
      | error e =>
        cases h2 : processChannels (qs ++ c₂ :: post) with
        | error e2 => cases e; cases e2; rfl
        | ok v2 => rw [h1, h2] at ih; simp [dropWarnings4, Except.map] at ih
      | ok v1 =>
        cases h2 : processChannels (qs ++ c₂ :: post) with
        | error e2 => rw [h1, h2] at ih; simp [dropWarnings4, Except.map] at ih
        | ok v2 =>
          obtain ⟨t1, cn1, pn1, ws1⟩ := v1
          obtain ⟨t2, cn2, pn2, ws2⟩ := v2
          rw [h1, h2] at ih
          simp only [dropWarnings4, Except.map, Except.ok.injEq, Prod.mk.injEq] at ih
          obtain ⟨ht, hcn, hpn⟩ := ih
          subst ht
          subst hcn
          subst hpn
          rfl

/-- Lifting the congruence to `create_xmltv`: equal warnings-forgotten
channel results give equal root children and the same abort behaviour. -/
theorem create_congr_channel (c₁ c₂ : JValue)
    (h : dropWarnings4 (processChannel c₁) = dropWarnings4 (processChannel c₂))
    (pre post : List JValue) :
    treeChildren (create_xmltv (mkData (pre ++ c₁ :: post))) =
    treeChildren (create_xmltv (mkData (pre ++ c₂ :: post))) ∧
    (create_xmltv (mkData (pre ++ c₁ :: post)) = .raised ↔
     create_xmltv (mkData (pre ++ c₂ :: post)) = .raised) := by
  have hc := processChannels_congr c₁ c₂ h pre post
  have hred : ∀ chs : List JValue, create_xmltv (mkData chs) =
      match processChannels chs with
      | .error _ => .raised
      | .ok (t, cn, pn, ws) =>
        .tree t (ws ++ (if cn = 0 then [Warning.zeroChannels] else [])
                    ++ (if pn = 0 then [Warning.zeroPrograms] else [])) :=
    fun chs => rfl
  rw [hred, hred]
  cases h1 : processChannels (pre ++ c₁ :: post) with
  | error e =>
    cases h2 : processChannels (pre ++ c₂ :: post) with
    | error e2 => exact ⟨rfl, Iff.rfl⟩
    | ok v2 => rw [h1, h2] at hc; simp [dropWarnings4, Except.map] at hc
  | ok v1 =>
    cases h2 : processChannels (pre ++ c₂ :: post) with
    | error e2 => rw [h1, h2] at hc; simp [dropWarnings4, Except.map] at hc
    | ok v2 =>
      obtain ⟨t1, cn1, pn1, ws1⟩ := v1
      obtain ⟨t2, cn2, pn2, ws2⟩ := v2
      rw [h1, h2] at hc
      simp only [dropWarnings4, Except.map, Except.ok.injEq, Prod.mk.injEq] at hc
      obtain ⟨ht, hcn, hpn⟩ := hc
      subst ht
      subst hcn
      subst hpn
      exact ⟨rfl, by simp⟩

/-- C6: a program whose raw `starts_at` compares `>=` its raw `ends_at`
(both timestamps converting successfully) is skipped with a warning: no
programme element is emitted for it, and the builder's children — in
particular the channel elements and their count — are exactly those
produced without that program. -/
theorem c6_inverted_range_skipped
    (pf : List (String × JValue)) (iv nv : JValue)
    (ps₁ ps₂ pre post : List JValue)
    (h1 : isNull (dictGetD pf "starts_at" .null) = false)
    (h2 : isNull (dictGetD pf "ends_at" .null) = false)
    (h3 : isNull (dictGetD pf "program_title" .null) = false)
    (h4 : (unix_to_xmltv (dictGetD pf "starts_at" .null)).isSome = true)
    (h5 : (unix_to_xmltv (dictGetD pf "ends_at" .null)).isSome = true)
    (h6 : pyGe (dictGetD pf "starts_at" .null) (dictGetD pf "ends_at" .null) = some true) :
    processProgram (pyStr iv) (.obj pf) =
      .ok (.inl (.startNotBeforeEnd (pyStr iv) (.obj pf))) ∧
    treeChildren (create_xmltv (mkData
        (pre ++ mkChannel iv nv (ps₁ ++ JValue.obj pf :: ps₂) :: post))) =
    treeChildren (create_xmltv (mkData
        (pre ++ mkChannel iv nv (ps₁ ++ ps₂) :: post))) ∧
    (create_xmltv (mkData (pre ++ mkChannel iv nv (ps₁ ++ JValue.obj pf :: ps₂) :: post))
        = .raised ↔
     create_xmltv (mkData (pre ++ mkChannel iv nv (ps₁ ++ ps₂) :: post)) = .raised) := by
  have hp : ∀ cid, processProgram cid (.obj pf) =
      .ok (.inl (.startNotBeforeEnd cid (.obj pf))) := by
    intro cid
    obtain ⟨s1, hs1⟩ := Option.isSome_iff_exists.mp h4
    obtain ⟨s2, hs2⟩ := Option.isSome_iff_exists.mp h5
    unfold processProgram
    simp only [h1, h2, h3, Bool.or_self, Bool.or_false, Bool.false_or,
      if_false, hs1, hs2, h6]
    rfl
  have hch := processChannel_skipProgram iv nv (.obj pf) _ (hp (pyStr iv)) ps₁ ps₂
  have hcr := create_congr_channel _ _ hch pre post
  exact ⟨hp (pyStr iv), hcr.1, hcr.2⟩

/-- Witness for C6 at a concrete channel holding one program with equal
start and end timestamps. -/
theorem c6_witness :
    processProgram (pyStr (JValue.num 1)) invertedProgram =
      .ok (.inl (.startNotBeforeEnd (pyStr (JValue.num 1)) invertedProgram)) ∧
    treeChildren (create_xmltv (mkData
        [mkChannel (JValue.num 1) (JValue.str "A") [invertedProgram]])) =
    treeChildren (create_xmltv (mkData
        [mkChannel (JValue.num 1) (JValue.str "A") []])) ∧
    (create_xmltv (mkData [mkChannel (JValue.num 1) (JValue.str "A") [invertedProgram]])
        = .raised ↔
     create_xmltv (mkData [mkChannel (JValue.num 1) (JValue.str "A") []]) = .raised) :=
  c6_inverted_range_skipped
    [("starts_at", JValue.num 5), ("ends_at", JValue.num 5), ("program_title", JValue.str "T")]
    (JValue.num 1) (JValue.str "A") [] [] [] [] rfl rfl rfl rfl rfl rfl

end EPG
